import Mathlib

/-!
Shallow embedding of the metric samplers of `src/cockpit/samples.py`
(CPU, memory, CPU temperature, disk aggregate and cgroup sources),
together with theorems checking the documented behaviour of each
source against the embedded code.

Conventions of the embedding:
* Python strings are Lean `String`s; `str.split()` is `pySplit`,
  `int(...)` is `pyInt?` (returning `none` where Python raises
  `ValueError`).
* Reads from kernel pseudo-files are modelled by passing file contents
  (or `Option String`, with `none` for a missing file) explicitly.
* Python float division is modelled over `ℚ`.
* Exceptions that escape a sampler are modelled with `Except`/`Option`.
-/

namespace Samples

/-- One step of the whitespace tokenizer behind `pySplit`: accumulated
tokens paired with the current (reversed) in-progress token. -/
def pySplitStep (acc : List String × List Char) (c : Char) : List String × List Char :=
  if c.isWhitespace then
    match acc.2 with
    | [] => (acc.1, [])
    | cur => (acc.1 ++ [String.mk cur.reverse], [])
  else (acc.1, c :: acc.2)

/-- Python `str.split()`: split on runs of whitespace, dropping empty
pieces. -/
def pySplit (s : String) : List String :=
  match s.toList.foldl pySplitStep ([], []) with
  | (toks, []) => toks
  | (toks, cur) => toks ++ [String.mk cur.reverse]

/-- Python `str.strip()`: remove leading and trailing whitespace. -/
def pyStrip (s : String) : String :=
  String.mk (((s.toList.dropWhile Char.isWhitespace).reverse.dropWhile
    Char.isWhitespace).reverse)

/-- `a.startsWith b` on character lists. -/
def listStarts : List Char → List Char → Bool
  | _, [] => true
  | [], _ :: _ => false
  | c :: cs, p :: ps => c = p && listStarts cs ps

/-- Python `str.startswith`. -/
def strStarts (s pre : String) : Bool :=
  listStarts s.toList pre.toList

/-- Python slicing `s[n:]`. -/
def strDrop (s : String) (n : Nat) : String :=
  String.mk (s.toList.drop n)

/-- Python slicing `s[:n]`. -/
def strTake (s : String) (n : Nat) : String :=
  String.mk (s.toList.take n)

/-- Parse a list of decimal digit characters; `none` when empty or when a
non-digit appears. -/
def parseDigits : List Char → Option Nat
  | [] => none
  | cs => cs.foldlM
      (fun acc c => if c.isDigit then some (acc * 10 + (c.toNat - '0'.toNat)) else none) 0

/-- Python `int(s)`: optional surrounding whitespace, optional sign, decimal
digits; `none` where Python raises `ValueError` (e.g. on `"max"`). -/
def pyInt? (s : String) : Option Int :=
  match (pyStrip s).toList with
  | '-' :: rest => (parseDigits rest).map (fun n => -(n : Int))
  | '+' :: rest => (parseDigits rest).map (fun n => (n : Int))
  | cs => (parseDigits cs).map (fun n => (n : Int))

/-- A Python runtime value appearing in a dynamically-typed comparison:
either a `str` or an `int`. -/
inductive PyVal where
  | str (s : String)
  | int (n : Int)
deriving DecidableEq

/-- Python `==` between dynamically-typed values: values of different
types compare unequal (no exception, simply `False`). -/
def pyEq : PyVal → PyVal → Bool
  | .str a, .str b => a = b
  | .int a, .int b => a = b
  | _, _ => false

/-! ## CPU source (`CPUSampler`) -/

/-- `MS_PER_JIFFY = 1000 / (USER_HZ if (USER_HZ > 0) else 100)`,
parameterised by the host's `USER_HZ` value. -/
def MS_PER_JIFFY (userHz : Int) : ℚ :=
  1000 / (if userHz > 0 then (userHz : ℚ) else 100)

/-- Outcome of `CPUSampler.sample` on one line of `/proc/stat`. -/
inductive CPULineResult where
  | skip
  | err
  | core (id : String) (user nice system iowait : ℚ)
  | basic (user nice system iowait : ℚ)
deriving DecidableEq

/-- One iteration of the loop in `CPUSampler.sample`: lines not starting
with `cpu` are skipped; the first six fields are unpacked as
`cpu, user, nice, system, _idle, iowait`; the core id is the token after
`cpu` (empty for the aggregate line); each tick count is multiplied by
`MS_PER_JIFFY`. `err` models the exceptions Python raises on too few
fields or an unparseable count. -/
def cpuSampleLine (userHz : Int) (line : String) : CPULineResult :=
  if ¬ strStarts line "cpu" then .skip
  else
    match pySplit line with
    | cpu :: user :: nice :: system :: _idle :: iowait :: _ =>
      match pyInt? user, pyInt? nice, pyInt? system, pyInt? iowait with
      | some u, some n, some s, some io =>
        let m := MS_PER_JIFFY userHz
        let core := strDrop cpu 3
        if core ≠ "" then .core core (u * m) (n * m) (s * m) (io * m)
        else .basic (u * m) (n * m) (s * m) (io * m)
      | _, _, _, _ => .err
    | _ => .err

/-! ## Memory source (`MemorySampler`) -/

/-- Python `dict` lookup over an association list (first binding wins). -/
def lookupItem (items : List (String × Int)) (k : String) : Option Int :=
  (items.find? (fun p => p.1 = k)).map (fun p => p.2)

/-- The four scalar values written by `MemorySampler.sample`. -/
structure MemorySamples where
  free : Int
  used : Int
  cached : Int
  swapUsed : Int
deriving DecidableEq

/-- `MemorySampler.sample` after the meminfo file has been parsed into a
key-to-integer mapping: each required key is looked up in the order the
code uses it, and a missing key makes the whole call fail (Python
`KeyError`), modelled as `none`. -/
def memorySample (items : List (String × Int)) : Option MemorySamples := do
  let memFree ← lookupItem items "MemFree"
  let memTotal ← lookupItem items "MemTotal"
  let memAvailable ← lookupItem items "MemAvailable"
  let buffers ← lookupItem items "Buffers"
  let cached ← lookupItem items "Cached"
  let swapTotal ← lookupItem items "SwapTotal"
  let swapFree ← lookupItem items "SwapFree"
  return ⟨1024 * memFree, 1024 * (memTotal - memAvailable),
          1024 * (buffers + cached), 1024 * (swapTotal - swapFree)⟩

/-- The meminfo keys `MemorySampler.sample` requires. -/
def requiredMemKeys : List String :=
  ["MemFree", "MemTotal", "MemAvailable", "Buffers", "Cached", "SwapTotal", "SwapFree"]

/-! ## Disk aggregate source (`DiskSampler`) -/

/-- Python `s[-1].isdigit()` (callers guarantee `s` nonempty). -/
def lastIsDigit (s : String) : Bool :=
  match s.toList.getLast? with
  | some c => c.isDigit
  | none => false

/-- Outcome of one iteration of the loop in `DiskSampler.sample`. -/
inductive DiskLine where
  | err
  | skip
  | contrib (bytesRead bytesWritten ops : Int)
deriving DecidableEq

/-- One iteration of the loop in `DiskSampler.sample` over a line of
`/proc/diskstats`.  The line is stripped and split; the unpack needs at
least ten fields (`err` models the `ValueError` otherwise).  The
device-mapper/software-RAID test is the code's `dev_major == 253 or
dev_major == 9`, a dynamically-typed comparison of the string field
against integer literals, embedded via `pyEq`.  Partitions of
`sd*`/`hd*`/`vd*` devices and NVMe partitions are skipped; remaining
lines contribute `sectors × 512` bytes read/written and the sum of the
merged read and write counts. -/
def diskSampleLine (line : String) : DiskLine :=
  match pySplit (pyStrip line) with
  | dev_major :: _ :: dev_name :: _ :: num_reads_merged :: num_sectors_read ::
      _ :: _ :: num_writes_merged :: num_sectors_written :: _ =>
    if pyEq (.str dev_major) (.int 253) || pyEq (.str dev_major) (.int 9) then .skip
    else if (strTake dev_name 2 = "sd" ∨ strTake dev_name 2 = "hd" ∨
        strTake dev_name 2 = "vd") ∧ lastIsDigit dev_name then .skip
    else if strStarts dev_name "nvme" ∧ dev_name.toList.contains 'p' then .skip
    else
      match pyInt? num_sectors_read, pyInt? num_sectors_written,
          pyInt? num_reads_merged, pyInt? num_writes_merged with
      | some sr, some sw, some rm, some wm => .contrib (sr * 512) (sw * 512) (rm + wm)
      | _, _, _, _ => .err
  | _ => .err

/-- `DiskSampler.sample` over the lines of `/proc/diskstats`: sums every
line's contribution into the three running totals
(`disk.all.read`, `disk.all.written`, `disk.all.ops`); a malformed line
raises (`Except.error`). -/
def diskSample (lines : List String) : Except Unit (Int × Int × Int) :=
  lines.foldlM
    (fun (acc : Int × Int × Int) line =>
      match diskSampleLine line with
      | .err => Except.error ()
      | .skip => Except.ok acc
      | .contrib r w o => Except.ok (acc.1 + r, acc.2.1 + w, acc.2.2 + o))
    (0, 0, 0)

/-! ## CPU temperature source (`CPUTemperatureSampler`)

The hwmon tree is modelled as the list of consecutive
`/sys/class/hwmon/hwmonN` directories (the code enumerates indices from 0
and stops at the first missing one).  Each directory carries its `name`
file content and the list of labels of its consecutive `tempN_input`
sensors (the code enumerates `N` from 1 and stops at the first missing
input file; the matching `tempN_label` content, stripped, is the label,
`""` when the label file is empty).  Sensor input file contents are
modelled by their parsed integer value. -/

/-- One hwmon device directory. -/
structure Hwmon where
  name : String
  temps : List String
deriving DecidableEq

/-- The `cpu_names` list in `CPUTemperatureSampler.sample`. -/
def cpu_names : List String :=
  ["coretemp", "cpu_thermal", "k8temp", "k10temp", "atk0110"]

/-- The per-sensor inclusion test of
`CPUTemperatureSampler.detect_cpu_sensors`: with a non-empty label, skip
when the device is `atk0110` and the label is not `CPU Temperature`, and
skip a `Tctl` label; with an empty label, keep only `cpu_thermal`
devices. -/
def includeSensor (name label : String) : Bool :=
  if label ≠ "" then
    if label ≠ "CPU Temperature" ∧ name = "atk0110" then false
    else if label = "Tctl" then false
    else true
  else decide (name = "cpu_thermal")

/-- The sensor path `/sys/class/hwmon/hwmon{hwmonid}/temp{index}_input`. -/
def sensorPath (hwmonid tempIndex : Nat) : String :=
  "/sys/class/hwmon/hwmon" ++ toString hwmonid ++ "/temp" ++ toString tempIndex ++ "_input"

/-- `CPUTemperatureSampler.detect_cpu_sensors`: walk the device's
`tempN_input` files (`N` counted from 1) and append the paths passing
`includeSensor` to the sensor cache; returns the appended paths in
order. -/
def detect_cpu_sensors (hwmonid : Nat) (name : String) (temps : List String) : List String :=
  temps.enum.filterMap
    (fun p => if includeSensor name p.2 then some (sensorPath hwmonid (p.1 + 1)) else none)

/-- The discovery loop of `CPUTemperatureSampler.sample`: scan the hwmon
directories in index order and gather sensors of devices whose `name` is
in `cpu_names`. -/
def scanSensors (hwmons : List Hwmon) : List String :=
  (hwmons.enum.map
    (fun p => if p.2.name ∈ cpu_names then detect_cpu_sensors p.1 p.2.name p.2.temps
       else [])).flatten

/-- The reading loop of `CPUTemperatureSampler.sample`: read each cached
sensor in order; a reading of exactly 0 ends the whole loop (`return`),
writing nothing for that sensor or any later one; a non-zero reading `t`
is written as `t / 1000` keyed by sensor path. -/
def readSensors (read : String → Int) : List String → List (String × ℚ)
  | [] => []
  | p :: rest =>
    let t := read p
    if t = 0 then []
    else (p, (t : ℚ) / 1000) :: readSensors read rest

/-- The filesystem state a temperature sampling pass reads: the hwmon
tree and the sensor input file contents. -/
structure TempFS where
  hwmons : List Hwmon
  readTemp : String → Int

/-- One call of `CPUTemperatureSampler.sample`, with the cross-pass
`sensors` cache passed explicitly.  Returns the cache after the call,
whether the discovery scan ran (`self.sensors` was empty), and the
`cpu.temperature` entries written.  Discovery runs exactly when the
cache is empty. -/
def cpuTempSample (fs : TempFS) (sensors : List String) :
    List String × Bool × List (String × ℚ) :=
  let scanned := sensors.isEmpty
  let sensors' := if sensors.isEmpty then scanSensors fs.hwmons else sensors
  (sensors', scanned, readSensors fs.readTemp sensors')

/-- A sequence of temperature sampling passes threading the sensor
cache; returns the final cache and, per pass, whether that pass ran the
discovery scan. -/
def runTempPasses (fss : List TempFS) (sensors : List String) :
    List String × List Bool :=
  match fss with
  | [] => (sensors, [])
  | fs :: rest =>
    let r := cpuTempSample fs sensors
    let (final, flags) := runTempPasses rest r.1
    (final, r.2.1 :: flags)

/-! ## CGroup source (`CGroupSampler`)

The cgroup filesystem is modelled as the walk order of directory paths
(`os.walk` yields the root first) plus a partial map from file path to
file content (`none` for a missing file). -/

/-- Split a string into its lines (the separating newlines dropped; a
trailing newline yields no extra empty line), matching how the Python
code consumes its files line by line. -/
def pyLinesOf (s : String) : List String :=
  let r := s.toList.foldl
    (fun (acc : List String × List Char) c =>
      if c = '\n' then (acc.1 ++ [String.mk acc.2.reverse], [])
      else (acc.1, c :: acc.2))
    ([], [])
  if r.2 = [] then r.1 else r.1 ++ [String.mk r.2.reverse]

/-- CPython's `sys.maxsize` on a 64-bit platform. -/
def SYS_MAXSIZE : Int := 2 ^ 63 - 1

/-- `CGroupSampler.read_cgroup_integer_stat`, given the content of the
file at `path` (`none` = missing).  A missing file is skipped
(`FileNotFoundError` caught), an unparseable value is skipped
(`ValueError` caught), and a value outside the open interval
`(0, sys.maxsize)` is skipped; otherwise the value is the entry written
for this metric and cgroup. -/
def read_cgroup_integer_stat (content : Option String) : Option Int :=
  match content with
  | none => none
  | some s =>
    match pyInt? s with
    | none => none
    | some v => if SYS_MAXSIZE > v ∧ v > 0 then some v else none

/-- The loop of `CGroupSampler.read_cgroup_keyed_stat` over the lines of
the file: lines not starting with `key` are skipped; a matching line's
last whitespace-separated token is parsed with `int`, and a parse
failure raises (`Except.error`, uncaught in the code); an in-interval
value `v` replaces the entry value with `v / 1000`. -/
def keyedStatLines (lines : List String) (key : String) : Except Unit (Option ℚ) :=
  lines.foldlM
    (fun acc line =>
      if ¬ strStarts line key then Except.ok acc
      else
        match (pySplit line).getLast? with
        | none => Except.error ()
        | some tok =>
          match pyInt? tok with
          | none => Except.error ()
          | some v => Except.ok (if SYS_MAXSIZE > v ∧ v > 0 then some ((v : ℚ) / 1000) else acc))
    none

/-- `CGroupSampler.read_cgroup_keyed_stat`, given the content of the file
at `path`.  Unlike the integer reader it has no exception handling: a
missing file or an unparseable matching value raises out of the call. -/
def read_cgroup_keyed_stat (content : Option String) (key : String) : Except Unit (Option ℚ) :=
  match content with
  | none => Except.error ()
  | some s => keyedStatLines (pyLinesOf s) key

/-- Fuel-driven helper for `pyReplace`: replace each occurrence of the
non-empty pattern `pat` by `rep`, scanning left to right. -/
def replaceFuel (pat rep : List Char) : Nat → List Char → List Char
  | 0, l => l
  | _ + 1, [] => []
  | fuel + 1, c :: cs =>
    if listStarts (c :: cs) pat ∧ pat ≠ [] then
      rep ++ replaceFuel pat rep fuel ((c :: cs).drop pat.length)
    else c :: replaceFuel pat rep fuel cs

/-- Python `s.replace(pat, rep)` for a non-empty `pat`. -/
def pyReplace (s pat rep : String) : String :=
  String.mk (replaceFuel pat.toList rep.toList s.toList.length s.toList)

/-- The class constant `CGroupSampler.cgroups_v2_path`. -/
def cgroups_v2_path : String := "/sys/fs/cgroup/"

/-- The five integer-stat files read per cgroup directory, with the
metric each one feeds, in the order the code reads them. -/
def cgroupIntegerFiles : List (String × String) :=
  [("memory.current", "cgroup.memory.usage"),
   ("memory.max", "cgroup.memory.limit"),
   ("memory.swap.current", "cgroup.memory.sw-usage"),
   ("memory.swap.max", "cgroup.memory.sw-limit"),
   ("cpu.weight", "cgroup.cpu.shares")]

/-- The body of the walk loop in `CGroupSampler.sample` for one
directory: the cgroup key is the path with the root prefix removed, and
the root itself (empty key) is skipped; then the five integer stats and
the keyed `cpu.stat` are read.  Entries are `(metric, cgroup, value)`
triples. -/
def sampleCgroupDir (file : String → Option String) (path : String) :
    Except Unit (List (String × String × ℚ)) :=
  let cgroup := pyReplace path cgroups_v2_path ""
  if cgroup = "" then Except.ok []
  else
    let intEntries := cgroupIntegerFiles.filterMap
      (fun p => (read_cgroup_integer_stat (file (path ++ "/" ++ p.1))).map
        (fun v => (p.2, cgroup, (v : ℚ))))
    match read_cgroup_keyed_stat (file (path ++ "/cpu.stat")) "usage_usec" with
    | .error e => .error e
    | .ok none => .ok intEntries
    | .ok (some q) => .ok (intEntries ++ [("cgroup.cpu.usage", cgroup, q)])

/-- The walk loop of `CGroupSampler.sample` over the directories in walk
order; an exception escaping one directory's reads aborts the whole
pass. -/
def cgroupSampleDirs (file : String → Option String) (dirs : List String) :
    Except Unit (List (String × String × ℚ)) :=
  dirs.foldlM (fun acc path => (sampleCgroupDir file path).map (fun l => acc ++ l)) []

/-- The filesystem state a cgroup sampling pass reads: whether the
`cgroup.controllers` probe file exists, the walk order of the cgroup
tree, and the per-cgroup file contents. -/
structure CGroupFS where
  hasControllers : Bool
  dirs : List String
  file : String → Option String

/-- One call of `CGroupSampler.sample`, with the cross-pass `cgroups_v2`
flag passed explicitly.  Returns the flag after the call, whether this
call examined the filesystem for the `cgroup.controllers` probe file
(only when the flag was still unresolved), and the entries written; the
walk is gated on the non-empty class constant `cgroups_v2_path`, not on
the flag. -/
def cgroupSample (fs : CGroupFS) (st : Option Bool) :
    Option Bool × Bool × Except Unit (List (String × String × ℚ)) :=
  let probe : Option Bool × Bool :=
    match st with
    | none => (some fs.hasControllers, true)
    | some b => (some b, false)
  let out := if cgroups_v2_path ≠ "" then cgroupSampleDirs fs.file fs.dirs else Except.ok []
  (probe.1, probe.2, out)

/-- A sequence of cgroup sampling passes threading the version flag;
returns the final flag and, per pass, whether that pass probed the
filesystem for `cgroup.controllers`. -/
def runCgroupPasses (fss : List CGroupFS) (st : Option Bool) :
    Option Bool × List Bool :=
  match fss with
  | [] => (st, [])
  | fs :: rest =>
    let r := cgroupSample fs st
    let (final, flags) := runCgroupPasses rest r.1
    (final, r.2.1 :: flags)

/-! ## Specification-side definitions and concrete fixtures -/

/-- Modelled from the spec: the sensor inclusion rule as §4.3 states it
(refinement reference for `includeSensor`): with a label present, include
unless the device is `atk0110` and the label is not exactly
`CPU Temperature`, or the label is exactly `Tctl`; with the label absent,
include only a `cpu_thermal` device. -/
def includeSensorSpec (name label : String) : Bool :=
  if label ≠ "" then
    decide (¬(name = "atk0110" ∧ label ≠ "CPU Temperature")) && decide (label ≠ "Tctl")
  else decide (name = "cpu_thermal")

/-- Walk order of a two-cgroup fixture tree (root first). -/
def c5dirs : List String :=
  ["/sys/fs/cgroup/", "/sys/fs/cgroup/bad", "/sys/fs/cgroup/good"]

/-- Fixture file contents where cgroup `bad` has a `cpu.stat` whose
`usage_usec` value is the unparseable text `max`. -/
def c5fileBad : String → Option String := fun p =>
  if p = "/sys/fs/cgroup/bad/cpu.stat" then some "usage_usec max\n"
  else if p = "/sys/fs/cgroup/good/cpu.stat" then some "usage_usec 5000\n"
  else if p = "/sys/fs/cgroup/good/memory.current" then some "100\n"
  else none

/-- The same fixture with `bad`'s `usage_usec` value parseable. -/
def c5fileOk : String → Option String := fun p =>
  if p = "/sys/fs/cgroup/bad/cpu.stat" then some "usage_usec 7000\n"
  else c5fileBad p

/-- Fixture sensor readings: sensor `a` reads 5000 millidegrees, every
other sensor reads the zero sentinel. -/
def c9read : String → Int := fun s => if s = "a" then 5000 else 0

/-! ## Theorems -/

/-- Claim C1 (code bug): the claim says a `/proc/diskstats` line with
device major 253 (or 9) contributes zero to all three running totals, and
the code's own comment says "ignore device-mapper and md"; but the code
compares the string field `dev_major` against the integer literals `253`
and `9`, a comparison that is always `False` in Python, so such a line
contributes its full sector and merged-operation counts.  Here the major
253 line adds 51200 bytes read, 102400 bytes written and 12 operations;
the partition `sda1` is excluded and `sda` is included as claimed. -/
theorem C1_disk_major_filter_bug :
    diskSample ["253 0 dm-0 33 5 100 0 17 7 200 0 0 0 0"] = Except.ok (51200, 102400, 12) ∧
    diskSampleLine "   8    1 sda1 10 2 300 0 5 3 400 0 0 0 0" = DiskLine.skip ∧
    diskSample ["   8    0 sda 10 2 300 0 5 3 400 0 0 0 0"] = Except.ok (153600, 204800, 5) :=
  ⟨rfl, rfl, rfl⟩

/-- Claim C2: on the stat line `cpu0 100 10 50 0 20` with 100 clock ticks
per second, the CPU source writes the per-core instanced metrics for
instance key `0` as user = 1000, nice = 100, system = 500 and
iowait = 200 milliseconds (each tick count times `1000 / ticks`). -/
theorem C2_cpu_core_metrics :
    cpuSampleLine 100 "cpu0 100 10 50 0 20" = CPULineResult.core "0" 1000 100 500 200 := by
  have h : cpuSampleLine 100 "cpu0 100 10 50 0 20" =
      .core "0" (((100 : Int) : ℚ) * MS_PER_JIFFY 100) (((10 : Int) : ℚ) * MS_PER_JIFFY 100)
        (((50 : Int) : ℚ) * MS_PER_JIFFY 100) (((20 : Int) : ℚ) * MS_PER_JIFFY 100) := rfl
  rw [h]
  norm_num [MS_PER_JIFFY]

/-- Claim C3: on the meminfo mapping MemTotal = 1000, MemFree = 200,
MemAvailable = 300, Buffers = 50, Cached = 50, SwapTotal = 100,
SwapFree = 40 (kilobytes), the memory source writes
memory.free = 204800, memory.used = 716800, memory.cached = 102400 and
memory.swap-used = 61440 bytes. -/
theorem C3_memory_metrics :
    memorySample [("MemTotal", 1000), ("MemFree", 200), ("MemAvailable", 300),
      ("Buffers", 50), ("Cached", 50), ("SwapTotal", 100), ("SwapFree", 40)] =
      some ⟨204800, 716800, 102400, 61440⟩ := rfl

/-- Claim C4: the memory source's sampling fails (its `KeyError`
propagates, modelled as `none`) whenever any of the seven required
meminfo keys is absent from the parsed mapping. -/
theorem C4_memory_missing_key_fails (items : List (String × Int)) (k : String)
    (hk : k ∈ requiredMemKeys) (habs : lookupItem items k = none) :
    memorySample items = none := by
  cases e1 : lookupItem items "MemFree" <;>
  cases e2 : lookupItem items "MemTotal" <;>
  cases e3 : lookupItem items "MemAvailable" <;>
  cases e4 : lookupItem items "Buffers" <;>
  cases e5 : lookupItem items "Cached" <;>
  cases e6 : lookupItem items "SwapTotal" <;>
  cases e7 : lookupItem items "SwapFree" <;>
    simp_all [memorySample, requiredMemKeys]
  rcases hk with h | h | h | h | h | h | h <;> subst h <;> simp_all

/-- Witness for C4: the empty mapping is missing `MemFree`, and the
sampling fails on it. -/
theorem C4_memory_missing_key_fails_witness : memorySample [] = none :=
  C4_memory_missing_key_fails [] "MemFree" (by simp [requiredMemKeys]) rfl

/-- Counterexample to claim C5 as stated: the per-cgroup file `cpu.stat`
read by the keyed reader has no exception handling, so a matching line
whose value fails integer parsing (`usage_usec max`) raises and aborts
the whole pass — no remaining file or cgroup is processed (the pass
yields an error and none of cgroup `good`'s entries), whereas with a
parseable value the same tree yields all entries. -/
theorem C5_keyed_stat_parse_error_aborts :
    cgroupSampleDirs c5fileBad c5dirs = Except.error () ∧
    cgroupSampleDirs c5fileOk c5dirs =
      Except.ok [("cgroup.cpu.usage", "bad", 7), ("cgroup.memory.usage", "good", 100),
        ("cgroup.cpu.usage", "good", 5)] := by
  constructor
  · rfl
  · have h : cgroupSampleDirs c5fileOk c5dirs =
        Except.ok [("cgroup.cpu.usage", "bad", ((7000 : Int) : ℚ) / 1000),
          ("cgroup.memory.usage", "good", ((100 : Int) : ℚ)),
          ("cgroup.cpu.usage", "good", ((5000 : Int) : ℚ) / 1000)] := rfl
    rw [h]
    norm_num

/-- Claim C5 as amended: for the files read by the integer reader,
content that fails integer parsing produces no entry, and a parsed value
outside the open interval `(0, sys.maxsize)` — in particular 0 —
produces no entry, the pass continuing either way; for the keyed
`cpu.stat` reader, a matching line whose parsed value lies outside the
interval produces no entry (parse failures there instead raise, per the
counterexample). -/
theorem C5_skip_policy_amended :
    (∀ s, pyInt? s = none → read_cgroup_integer_stat (some s) = none) ∧
    (∀ s v, pyInt? s = some v → ¬(0 < v ∧ v < SYS_MAXSIZE) →
      read_cgroup_integer_stat (some s) = none) ∧
    (∀ key line tok v, (pySplit line).getLast? = some tok → pyInt? tok = some v →
      ¬(0 < v ∧ v < SYS_MAXSIZE) → keyedStatLines [line] key = Except.ok none) := by
  refine ⟨?_, ?_, ?_⟩
  · intro s h
    simp [read_cgroup_integer_stat, h]
  · intro s v h hv
    have hiv : ¬(SYS_MAXSIZE > v ∧ v > 0) := fun hc => hv ⟨hc.2, hc.1⟩
    simp [read_cgroup_integer_stat, h, hiv]
  · intro key line tok v hl hp hv
    have hiv : ¬(SYS_MAXSIZE > v ∧ v > 0) := fun hc => hv ⟨hc.2, hc.1⟩
    by_cases hs : strStarts line key <;>
      simp [keyedStatLines, List.foldlM, hs, hl, hp, hiv]

/-- Witness for the amended C5: a `memory.max`-style file containing
`max` yields no entry, one containing `0` yields no entry, and a
`cpu.stat` whose `usage_usec` value is 0 yields no entry without
raising. -/
theorem C5_skip_policy_amended_witness :
    read_cgroup_integer_stat (some "max\n") = none ∧
    read_cgroup_integer_stat (some "0\n") = none ∧
    keyedStatLines ["usage_usec 0"] "usage_usec" = Except.ok none :=
  ⟨C5_skip_policy_amended.1 "max\n" rfl,
   C5_skip_policy_amended.2.1 "0\n" 0 rfl (by decide),
   C5_skip_policy_amended.2.2 "usage_usec" "usage_usec 0" "0" 0 rfl rfl (by decide)⟩

/-- Counterexample to claim C6 as stated: discovery is guarded only by
the cache being empty, so when a scan finds no sensors (here an empty
hwmon tree) the cache stays empty and the second pass scans the tree
again, contrary to "the second and all later passes never re-scan". -/
theorem C6_empty_scan_repeats :
    (cpuTempSample ⟨[], fun _ => 0⟩ []).2.1 = true ∧
    (cpuTempSample ⟨[], fun _ => 0⟩ (cpuTempSample ⟨[], fun _ => 0⟩ []).1).2.1 = true :=
  ⟨rfl, rfl⟩

/-- Claim C6 as amended: once the sensor cache is non-empty, every later
sampling pass (over any sequence of filesystem states) reuses the cached
list unchanged and never runs the discovery scan. -/
theorem C6_no_rescan_once_nonempty (fss : List TempFS) (sensors : List String)
    (h : sensors ≠ []) :
    (runTempPasses fss sensors).1 = sensors ∧
    (runTempPasses fss sensors).2 = List.replicate fss.length false := by
  induction fss generalizing sensors with
  | nil => simp [runTempPasses]
  | cons fs rest ih =>
    have hne : sensors.isEmpty = false := by simpa using h
    simp only [runTempPasses, cpuTempSample, hne, Bool.false_eq_true, if_false,
      List.length_cons, List.replicate_succ]
    exact ⟨(ih sensors h).1, by rw [(ih sensors h).2]⟩

/-- Witness for the amended C6: starting from a one-sensor cache, two
passes over an empty hwmon tree run no discovery scan. -/
theorem C6_no_rescan_once_nonempty_witness :
    (runTempPasses [⟨[], fun _ => 0⟩, ⟨[], fun _ => 0⟩]
      ["/sys/class/hwmon/hwmon0/temp1_input"]).2 = [false, false] := by
  have h := C6_no_rescan_once_nonempty [⟨[], fun _ => 0⟩, ⟨[], fun _ => 0⟩]
    ["/sys/class/hwmon/hwmon0/temp1_input"] (by simp)
  simpa using h.2

/-- Claim C7: once the cgroups-v2 flag is resolved to `some b`, every
later sampling pass leaves it `some b` and never probes the filesystem
for `cgroup.controllers` again (all probe flags are false). -/
theorem C7_probe_idempotent (fss : List CGroupFS) (b : Bool) :
    (runCgroupPasses fss (some b)).1 = some b ∧
    (runCgroupPasses fss (some b)).2 = List.replicate fss.length false := by
  induction fss with
  | nil => simp [runCgroupPasses]
  | cons fs rest ih =>
    simp only [runCgroupPasses, cgroupSample, List.length_cons, List.replicate_succ]
    exact ⟨ih.1, by rw [ih.2]⟩

/-- Helper: the code's per-sensor inclusion test agrees pointwise with
the spec's formulation of the rule. -/
theorem includeSensor_eq_spec (name label : String) :
    includeSensor name label = includeSensorSpec name label := by
  unfold includeSensor includeSensorSpec
  by_cases h0 : label = "" <;>
  by_cases h1 : name = "atk0110" <;>
  by_cases h2 : label = "CPU Temperature" <;>
  by_cases h3 : label = "Tctl" <;>
    simp_all

/-- Claim C8: sensor discovery caches exactly the `tempN_input` paths
passing the spec's inclusion rule — with a label present, the sensor is
included unless the device is `atk0110` and the label is not exactly
`CPU Temperature`, or the label is exactly `Tctl`; with the label
absent, only for a `cpu_thermal` device. -/
theorem C8_sensor_inclusion_rule (hwmonid : Nat) (name : String) (temps : List String) :
    detect_cpu_sensors hwmonid name temps =
      temps.enum.filterMap
        (fun p => if includeSensorSpec name p.2 then some (sensorPath hwmonid (p.1 + 1))
          else none) := by
  unfold detect_cpu_sensors
  congr 1
  funext p
  rw [includeSensor_eq_spec]

/-- Claim C9: in the reading phase, a sensor reading exactly zero stops
the pass — no entry is written for it or for any later sensor — while
every sensor before it (and, when no zero occurs, every sensor) with a
non-zero reading `v` is written as `v / 1000` keyed by its path. -/
theorem C9_zero_sentinel_stops_pass (read : String → Int) :
    (∀ pre p post, read p = 0 → (∀ q ∈ pre, read q ≠ 0) →
      readSensors read (pre ++ p :: post) = pre.map (fun q => (q, (read q : ℚ) / 1000))) ∧
    (∀ l, (∀ q ∈ l, read q ≠ 0) →
      readSensors read l = l.map (fun q => (q, (read q : ℚ) / 1000))) := by
  constructor
  · intro pre p post hz hpre
    induction pre with
    | nil => simp [readSensors, hz]
    | cons a rest ih =>
      have ha : read a ≠ 0 := hpre a (by simp)
      simp [readSensors, ha, ih (fun q hq => hpre q (by simp [hq]))]
  · intro l hl
    induction l with
    | nil => simp [readSensors]
    | cons a rest ih =>
      have ha : read a ≠ 0 := hl a (by simp)
      simp [readSensors, ha, ih (fun q hq => hl q (by simp [hq]))]

/-- Witness for C9: with sensor `a` reading 5000 and sensors `b`, `c`
reading zero, the pass writes only `(a, 5)`. -/
theorem C9_zero_sentinel_stops_pass_witness :
    readSensors c9read ["a", "b", "c"] = [("a", 5)] := by
  have h := (C9_zero_sentinel_stops_pass c9read).1 ["a"] "b" ["c"] rfl (by decide)
  simp only [List.cons_append, List.nil_append, List.map_cons, List.map_nil] at h
  rw [h]
  norm_num [c9read]

/-- Claim C10: the entries written by a cgroup sampling pass do not
depend on how the cgroups-v2 flag resolved — over the same filesystem
state, a run with the flag resolved `true` and a run with it resolved
`false` produce identical entries, because the walk is gated on the
non-empty `cgroups_v2_path` constant, not on the flag. -/
theorem C10_entries_flag_independent (fs : CGroupFS) :
    (cgroupSample fs (some true)).2.2 = (cgroupSample fs (some false)).2.2 := rfl

end Samples
